import Mathlib

/-!
Shallow embedding of the resilient request dispatcher of the `down` repository
(`app.py` together with the store layer `database.py`): credential/proxy
round-robin selection backed by TTL caches, the shared Cloudflare challenge
state, the retry state machine of `process_sora_request`, and the
outcome-recording tail of the `get_sora_link` endpoint.

Modelling conventions:
- Python's `time.time()` is passed around explicitly as an integer-valued
  clock `now : Int`; only comparisons of times occur, so any linearly ordered
  clock is faithful.
- Python exceptions that the dispatcher distinguishes (`KeyError`,
  `IndexError`, `TypeError`) are values of `PyErr`; fallible operations
  return `Except PyErr _`.
- The settings mapping is modelled post-parse: a field `b : Bool` stands for
  `settings.get(key) == '1'` and `max_retries : Nat` stands for
  `int(settings.get('max_retries', '3'))`.
- Network I/O is an environment: `Env.responses k` is the outcome of the
  `k`-th call to `make_sora_api_call`, `Env.refreshResults k` the outcome of
  the `k`-th call to `refresh_token`, and `Env.proxyStore` the rows returned
  by `db.get_enabled_proxies()` (constant within one dispatch, as nothing in
  the loop writes the proxies table).
- Side effects that do not feed back into control flow (sleeping, solver
  calls, Cloudflare invalidation) are recorded in the dispatch state so that
  theorems can speak about them.
-/

/-- Python truthiness of an optional string: `None` and `""` are falsy. -/
def strTruthy : Option String → Bool
  | none => false
  | some s => !s.isEmpty

/-- The Python exception kinds the dispatcher's `except` clauses distinguish. -/
inductive PyErr where
  | keyError
  | indexError
  | typeError
deriving DecidableEq

/-- Python list indexing `xs[i]` for a non-negative index: the element when in
range, `IndexError` otherwise. -/
def pyListGet {α : Type} (xs : List α) (i : Nat) : Except PyErr α :=
  match xs.get? i with
  | some a => Except.ok a
  | none => Except.error PyErr.indexError

/-- JSON values, the shape of `response.json()`. -/
inductive Json where
  | null
  | str (s : String)
  | num (n : Int)
  | bool (b : Bool)
  | arr (elems : List Json)
  | obj (fields : List (String × Json))

/-- Lookup of a key in a JSON object's field list (first match wins, as in a
Python dict built from JSON). -/
def jsonLookup : List (String × Json) → String → Option Json
  | [], _ => none
  | (k, v) :: rest, key => if k = key then some v else jsonLookup rest key

/-- Python subscript `j[key]` with a string key: a dict yields the value or
raises `KeyError`; lists, strings, numbers, booleans and `None` raise
`TypeError`. -/
def pySubscriptStr : Json → String → Except PyErr Json
  | Json.obj fields, key =>
    match jsonLookup fields key with
    | some v => Except.ok v
    | none => Except.error PyErr.keyError
  | _, _ => Except.error PyErr.typeError

/-- Python subscript `j[i]` with a natural-number index: a list indexes (or
raises `IndexError`), a JSON-derived dict raises `KeyError` (its keys are
strings), a string indexes by character, everything else raises
`TypeError`. -/
def pySubscriptNat : Json → Nat → Except PyErr Json
  | Json.arr xs, i => pyListGet xs i
  | Json.obj _, _ => Except.error PyErr.keyError
  | Json.str s, i =>
    match s.toList.get? i with
    | some c => Except.ok (Json.str (String.mk [c]))
    | none => Except.error PyErr.indexError
  | _, _ => Except.error PyErr.typeError

/-- The nested extraction of `process_sora_request` (app.py line 341):
`response_data['post']['attachments'][0]['encodings']['source']['path']`. -/
def extract_download_link (j : Json) : Except PyErr Json := do
  let post ← pySubscriptStr j "post"
  let atts ← pySubscriptStr post "attachments"
  let a0 ← pySubscriptNat atts 0
  let enc ← pySubscriptStr a0 "encodings"
  let src ← pySubscriptStr enc "source"
  pySubscriptStr src "path"

/-- The `CloudflareState` object of app.py (lines 25-127): clearance token,
user agent, cookie dict, expiry instant and validity flag.  The field `valid`
is the Python attribute `_is_valid`. -/
structure CloudflareState where
  cf_clearance : Option String
  user_agent : Option String
  cookies : List (String × String)
  expires_at : Int
  valid : Bool
deriving DecidableEq

/-- Fresh state built in `CloudflareState.__init__`. -/
def CloudflareState.init : CloudflareState :=
  { cf_clearance := none, user_agent := none, cookies := [],
    expires_at := 0, valid := false }

/-- The `is_valid` property (app.py lines 56-64): false when the validity flag
is down or no clearance token is present (Python truthiness), false when
`time.time() > expires_at`, true otherwise. -/
def CloudflareState.is_valid (s : CloudflareState) (now : Int) : Bool :=
  if !s.valid || !(strTruthy s.cf_clearance) then false
  else if s.expires_at < now then false
  else true

/-- `invalidate` (app.py lines 84-88): drops the flag, keeps the data. -/
def CloudflareState.invalidate (s : CloudflareState) : CloudflareState :=
  { s with valid := false }

/-- Python dict assignment `m[k] = v`: overwrite an existing key in place or
append a new binding. -/
def dictSet (m : List (String × String)) (k v : String) : List (String × String) :=
  if m.any (fun p => p.1 = k) then
    m.map (fun p => if p.1 = k then (k, v) else p)
  else m ++ [(k, v)]

/-- `update` (app.py lines 66-82): replace every field, insert the clearance
into the cookie dict when truthy, set `expires_at = now + ttl` and raise the
validity flag. -/
def CloudflareState.update (_s : CloudflareState) (cf ua : Option String)
    (cookies : Option (List (String × String))) (ttl now : Int) : CloudflareState :=
  let cks := cookies.getD []
  let cks := if strTruthy cf then dictSet cks "cf_clearance" (cf.getD "") else cks
  { cf_clearance := cf, user_agent := ua, cookies := cks,
    expires_at := now + ttl, valid := true }

/-- `clear` (app.py lines 90-98): back to the empty state. -/
def CloudflareState.clear (_s : CloudflareState) : CloudflareState :=
  CloudflareState.init

/-- One row of `sora_accounts` as the dispatcher uses it. -/
structure Account where
  id : Nat
  access_token : String
  refresh_token : String
  client_id : String
deriving DecidableEq

/-- One row of `proxies` as the dispatcher uses it. -/
structure Proxy where
  id : Nat
  proxy_url : String
deriving DecidableEq

/-- The parsed settings mapping (see the module conventions above). -/
structure Settings where
  proxy_enabled : Bool
  proxy_pool_enabled : Bool
  cf_solver_enabled : Bool
  retry_on_429 : Bool
  retry_on_403 : Bool
  max_retries : Nat
  retry_delay : Nat
deriving DecidableEq

/-- The module-level state `get_next_proxy` touches: the round-robin index
`proxy_index`, plus a count of `db.get_enabled_proxies()` round-trips so that
theorems can speak about store traffic. -/
structure SelState where
  index : Nat
  fetches : Nat
deriving DecidableEq

/-- `get_next_proxy` (app.py lines 182-201).  Returns `None` when the proxy
feature or the pool is disabled; otherwise fetches the enabled proxies from
the store (every call — there is no cache here), returns `None` on an empty
pool, and else picks `proxies[proxy_index % len]` and advances the index. -/
def get_next_proxy (settings : Settings) (store : List Proxy) (s : SelState) :
    Except PyErr (Option Proxy) × SelState :=
  if settings.proxy_enabled = false then (Except.ok none, s)
  else if settings.proxy_pool_enabled = true then
    let s' : SelState := { s with fetches := s.fetches + 1 }
    if store.isEmpty = false then
      let i := s'.index % store.length
      match pyListGet store i with
      | Except.ok p => (Except.ok (some p), { s' with index := i + 1 })
      | Except.error e => (Except.error e, s')
    else (Except.ok none, s')
  else (Except.ok none, s)

/-- The `_accounts_cache` cell: cached snapshot plus expiry instant. -/
structure CacheSlot (α : Type) where
  data : Option α
  expires : Int
deriving DecidableEq

/-- The module-level state `get_next_account` touches: `account_index`, the
accounts cache, and a count of `db.get_enabled_accounts()` round-trips. -/
structure AccState where
  index : Nat
  cache : CacheSlot (List Account)
  fetches : Nat
deriving DecidableEq

/-- `get_next_account` (app.py lines 156-173).  Refetches the enabled-account
snapshot when the cache is cold or expired (`now >= expires`), with a 10
second TTL; returns `None` on an empty snapshot; else picks
`accounts[account_index % len]` and advances the index. -/
def get_next_account (store : List Account) (now : Int) (s : AccState) :
    Except PyErr (Option Account) × AccState :=
  let s :=
    if s.cache.data = none ∨ s.cache.expires ≤ now then
      { s with cache := ⟨some store, now + 10⟩, fetches := s.fetches + 1 }
    else s
  match s.cache.data with
  | none => (Except.ok none, s)
  | some accounts =>
    if accounts.isEmpty = true then (Except.ok none, s)
    else
      let i := s.index % accounts.length
      match pyListGet accounts i with
      | Except.ok a => (Except.ok (some a), { s with index := i + 1 })
      | Except.error e => (Except.error e, s)

/-- True when a fallible operation did not raise. -/
def noRaise {α : Type} : Except PyErr α → Bool
  | Except.ok _ => true
  | Except.error _ => false

/-- Outcome of one `make_sora_api_call` as the dispatcher's `try` observes it:
a 2xx response with a JSON body, an `errors.RequestsError` carrying an
optional status code and its `str(e)` message, or any other exception. -/
inductive UpResp where
  | ok (body : Json)
  | httpErr (status : Option Nat) (message : String)
  | exc (message : String)

/-- The I/O environment of one dispatch (see the module conventions). -/
structure Env where
  responses : Nat → UpResp
  refreshResults : Nat → Except String (String × String)
  proxyStore : List Proxy
  cfValidAtStart : Bool

/-- The return value of `process_sora_request`: `{'success': True,
'download_link': ...}` or `{'success': False, 'error': ..., 'proxy_id': ...}`. -/
inductive DispatchResult where
  | success (download_link : Json)
  | failure (error : Option String) (proxy_id : Option Nat)

/-- The message bound by `except (KeyError, IndexError)` in
`process_sora_request` (app.py line 388). -/
def parseErrorMessage : String := "无法从API响应中找到下载链接"

/-- Stand-in for `str(e)` of a `TypeError` raised by the nested subscripts;
its exact text never feeds back into control flow. -/
def typeErrorMessage : String := "unsubscriptable response field"

/-- Mutable state of one run of `process_sora_request`: the per-call account
copy (whose `access_token` a refresh swaps), the current proxy and
`proxy_id`, the shared `proxy_index` state, and an effect log (upstream
calls, refresh calls, sleeps, Cloudflare invalidations, solver calls,
`last_error`, and the (before, after) pair of every 429 proxy rotation). -/
structure DState where
  account : Account
  proxy : Option Proxy
  proxy_id : Option Nat
  sel : SelState
  upCalls : Nat
  refreshCalls : Nat
  sleeps : List Nat
  cfInvalidations : Nat
  solveCalls : Nat
  last_error : Option String
  rot429 : List (Option Proxy × Option Proxy)

/-- What one loop iteration decides: return a value (or let an exception
escape), or `continue`. -/
inductive StepRes where
  | done (r : Except PyErr DispatchResult)
  | next

/-- Fall-through tail of the loop body after the 429 and 403 branches
(app.py lines 376-385): on 401 call `refresh_token`; on refresh success swap
the in-memory token and `continue` (no sleep); on refresh failure set
`last_error` and `break`.  Any other status falls to `break`, returning the
failure dict. -/
def after403 (env : Env) (s : DState) (status : Option Nat) : StepRes × DState :=
  if status = some 401 then
    let r := env.refreshResults s.refreshCalls
    let s := { s with refreshCalls := s.refreshCalls + 1 }
    match r with
    | Except.ok (new_access, _new_refresh) =>
      (StepRes.next, { s with account := { s.account with access_token := new_access } })
    | Except.error refresh_error =>
      let s := { s with last_error := some ("Token 刷新失败: " ++ refresh_error) }
      (StepRes.done (Except.ok (DispatchResult.failure s.last_error s.proxy_id)), s)
  else (StepRes.done (Except.ok (DispatchResult.failure s.last_error s.proxy_id)), s)

/-- Fall-through tail after the 429 branch (app.py lines 364-374): on 403
with retry-on-403 enabled, invalidate the challenge state; when attempts
remain, optionally re-solve, sleep a flat `retry_delay` and `continue`;
otherwise fall further. -/
def after429 (settings : Settings) (env : Env) (attempt : Nat) (s : DState)
    (status : Option Nat) : StepRes × DState :=
  if status = some 403 ∧ settings.retry_on_403 = true then
    let s := { s with cfInvalidations := s.cfInvalidations + 1 }
    if attempt < settings.max_retries then
      let s := if settings.cf_solver_enabled = true
               then { s with solveCalls := s.solveCalls + 1 } else s
      (StepRes.next, { s with sleeps := s.sleeps ++ [settings.retry_delay] })
    else after403 env s status
  else after403 env s status

/-- One iteration of the `for attempt in range(max_retries + 1)` loop of
`process_sora_request` (app.py lines 338-392).  Issues the upstream call; on
a parsed body returns success or, when the nested field is absent, breaks
with the parse-failure message; on `RequestsError` records `str(e)` and runs
the 429 / 403 / 401 ladder (a 429 with attempts remaining rotates the proxy
through `get_next_proxy`, logs the rotation pair, optionally re-solves, and
sleeps `retry_delay * (attempt + 1)`); on any other exception breaks. -/
def attemptStep (settings : Settings) (env : Env) (attempt : Nat) (s : DState) :
    StepRes × DState :=
  let resp := env.responses s.upCalls
  let s := { s with upCalls := s.upCalls + 1 }
  match resp with
  | UpResp.ok body =>
    match extract_download_link body with
    | Except.ok link => (StepRes.done (Except.ok (DispatchResult.success link)), s)
    | Except.error PyErr.keyError =>
      let s := { s with last_error := some parseErrorMessage }
      (StepRes.done (Except.ok (DispatchResult.failure s.last_error s.proxy_id)), s)
    | Except.error PyErr.indexError =>
      let s := { s with last_error := some parseErrorMessage }
      (StepRes.done (Except.ok (DispatchResult.failure s.last_error s.proxy_id)), s)
    | Except.error PyErr.typeError =>
      let s := { s with last_error := some typeErrorMessage }
      (StepRes.done (Except.ok (DispatchResult.failure s.last_error s.proxy_id)), s)
  | UpResp.exc m =>
    let s := { s with last_error := some m }
    (StepRes.done (Except.ok (DispatchResult.failure s.last_error s.proxy_id)), s)
  | UpResp.httpErr status msg =>
    let s := { s with last_error := some msg }
    if status = some 429 ∧ settings.retry_on_429 = true then
      let s := { s with cfInvalidations := s.cfInvalidations + 1 }
      if attempt < settings.max_retries then
        let old := s.proxy
        match get_next_proxy settings env.proxyStore s.sel with
        | (Except.error e, sel') =>
          (StepRes.done (Except.error e), { s with sel := sel' })
        | (Except.ok new_proxy, sel') =>
          let s := { s with proxy := new_proxy,
                            proxy_id := new_proxy.map Proxy.id,
                            sel := sel',
                            rot429 := s.rot429 ++ [(old, new_proxy)] }
          let s := if settings.cf_solver_enabled = true
                   then { s with solveCalls := s.solveCalls + 1 } else s
          (StepRes.next, { s with sleeps := s.sleeps ++ [settings.retry_delay * (attempt + 1)] })
      else after429 settings env attempt s status
    else after429 settings env attempt s status

/-- The retry loop.  `fuel` is the number of iterations the `range` still
admits; when it runs out the function returns the failure dict with the last
recorded error, exactly as falling off the `for` does. -/
def dispatchLoop (settings : Settings) (env : Env) :
    Nat → Nat → DState → Except PyErr DispatchResult × DState
  | 0, _attempt, s =>
    (Except.ok (DispatchResult.failure s.last_error s.proxy_id), s)
  | fuel + 1, attempt, s =>
    match attemptStep settings env attempt s with
    | (StepRes.done r, s') => (r, s')
    | (StepRes.next, s') => dispatchLoop settings env fuel (attempt + 1) s'

/-- Initial dispatch state for one call. -/
def initState (account : Account) (proxy : Option Proxy) (proxy_id : Option Nat)
    (sel : SelState) : DState :=
  { account := account, proxy := proxy, proxy_id := proxy_id, sel := sel,
    upCalls := 0, refreshCalls := 0, sleeps := [], cfInvalidations := 0,
    solveCalls := 0, last_error := none, rot429 := [] }

/-- `process_sora_request` (app.py lines 324-394): the pre-loop solver call
when the solver is enabled and the shared challenge state is invalid, then
the retry loop over `range(max_retries + 1)`. -/
def process_sora_request (settings : Settings) (env : Env) (account : Account)
    (proxy : Option Proxy) (proxy_id : Option Nat) (sel : SelState) :
    Except PyErr DispatchResult × DState :=
  let s := initState account proxy proxy_id sel
  let s := if settings.cf_solver_enabled = true ∧ env.cfValidAtStart = false
           then { s with solveCalls := s.solveCalls + 1 } else s
  dispatchLoop settings env (settings.max_retries + 1) 0 s

/-- ASCII word character of the regex class `[a-zA-Z0-9_]`. -/
def isWordChar (c : Char) : Bool := c.isAlphanum || c = '_'

/-- Try the pattern `sora\.chatgpt\.com/p/([a-zA-Z0-9_]+)` anchored at the
head of `cs`: the literal prefix followed by at least one word character,
capturing the maximal (greedy) run. -/
def matchSoraAt (cs : List Char) : Option String :=
  let pre := "sora.chatgpt.com/p/".toList
  if cs.take pre.length = pre then
    let run := (cs.drop pre.length).takeWhile isWordChar
    if run.isEmpty then none else some (String.mk run)
  else none

/-- `re.search` of that pattern: try every start position left to right,
return the first capture. -/
def findSoraId : List Char → Option String
  | [] => none
  | c :: rest =>
    match matchSoraAt (c :: rest) with
    | some s => some s
    | none => findSoraId rest

/-- What the `get-sora-link` handler decides before dispatching: one of the
early error replies, the dispatch hand-off, or an escaped selector
exception. -/
inductive LinkReply where
  | raised (e : PyErr)
  | noAccount
  | badToken
  | noUrl
  | badFormat
  | dispatched (video_id : String) (account : Account)

/-- The pre-dispatch half of `get_sora_link` (app.py lines 429-449), in
source order: select an account first (advancing the shared index); with no
account reply 500 `noAccount`; then, when a static application token is
configured (truthy), reject a non-matching request token with 401; then
validate the URL field (Python truthiness) and the link format; on success
hand the extracted video id and the chosen account to the dispatcher. -/
def get_sora_link_front (appToken reqToken url : Option String)
    (store : List Account) (now : Int) (s : AccState) : LinkReply × AccState :=
  match get_next_account store now s with
  | (Except.error e, s') => (LinkReply.raised e, s')
  | (Except.ok none, s') => (LinkReply.noAccount, s')
  | (Except.ok (some account), s') =>
    if strTruthy appToken = true ∧ reqToken ≠ appToken then
      (LinkReply.badToken, s')
    else if strTruthy url = false then
      (LinkReply.noUrl, s')
    else
      match findSoraId (url.getD "").toList with
      | none => (LinkReply.badFormat, s')
      | some video_id => (LinkReply.dispatched video_id account, s')

/-- Whether each store write of the outcome-recording tail raises.  The three
calls are `db.update_account_usage`, `db.update_proxy_usage` and
`db.add_log`; each is sqlite I/O and can raise, and `get_sora_link` wraps
none of them in a handler. -/
structure RecorderEnv where
  updateAccountUsageOk : Bool
  updateProxyUsageOk : Bool
  addLogOk : Bool
deriving DecidableEq

/-- The HTTP reply `get_sora_link` produces after recording. -/
inductive HttpReply where
  | okLink (download_link : Json)
  | errorReply (code : Nat) (message : String)

/-- `str(x)` of an optional error string, as Python interpolates it. -/
def pyStrOpt : Option String → String
  | none => "None"
  | some s => s

/-- The outcome-recording tail of `get_sora_link` (app.py lines 453-464),
in source order: update account usage, then (when a proxy id is present)
proxy usage, then append the log entry, then reply.  A raise in any store
call escapes as `Except.error` — there is no exception handler around these
calls, so the reply is never produced. -/
def record_and_respond (renv : RecorderEnv) (proxy_id : Option Nat)
    (result : DispatchResult) : Except String HttpReply :=
  match result with
  | DispatchResult.success link =>
    if renv.updateAccountUsageOk = false then
      Except.error "db.update_account_usage raised"
    else if proxy_id ≠ none ∧ renv.updateProxyUsageOk = false then
      Except.error "db.update_proxy_usage raised"
    else if renv.addLogOk = false then
      Except.error "db.add_log raised"
    else Except.ok (HttpReply.okLink link)
  | DispatchResult.failure err result_proxy_id =>
    if renv.updateAccountUsageOk = false then
      Except.error "db.update_account_usage raised"
    else if result_proxy_id ≠ none ∧ renv.updateProxyUsageOk = false then
      Except.error "db.update_proxy_usage raised"
    else if renv.addLogOk = false then
      Except.error "db.add_log raised"
    else Except.ok (HttpReply.errorReply 500 ("请求失败: " ++ pyStrOpt err))

/-- `n` consecutive `get_next_account` calls at a fixed clock instant,
collecting the returned items (an escaped exception, proved impossible
below, truncates the run). -/
def iterSelect (store : List Account) (now : Int) :
    Nat → AccState → List (Option Account) × AccState
  | 0, s => ([], s)
  | n + 1, s =>
    match get_next_account store now s with
    | (Except.ok a, s') =>
      let r := iterSelect store now n s'
      (a :: r.1, r.2)
    | (Except.error _, s') => ([], s')

/-- A download URI as it sits at the nested path of a well-formed body. -/
def sampleLink : Json := Json.str "https://videos.example/source.mp4"

/-- A well-formed upstream body: the nested path
`post.attachments[0].encodings.source.path` is present. -/
def goodBody : Json :=
  Json.obj [("post", Json.obj [("attachments",
    Json.arr [Json.obj [("encodings",
      Json.obj [("source", Json.obj [("path", sampleLink)])])]])])]

/-- A 2xx body lacking the nested path: `post` is present but has no
`attachments` key. -/
def badBody : Json := Json.obj [("post", Json.obj [])]

/-- A concrete enabled account. -/
def accountA : Account :=
  { id := 1, access_token := "tokA", refresh_token := "refA", client_id := "clientA" }

/-- A second concrete enabled account. -/
def accountB : Account :=
  { id := 2, access_token := "tokB", refresh_token := "refB", client_id := "clientB" }

/-- Two concrete enabled proxies. -/
def proxyP1 : Proxy := { id := 1, proxy_url := "http://p1.example:8080" }

/-- See `proxyP1`. -/
def proxyP2 : Proxy := { id := 2, proxy_url := "http://p2.example:8080" }

/-- Settings with the proxy pool on, retry-on-429 on, one retry. -/
def settingsPool : Settings :=
  { proxy_enabled := true, proxy_pool_enabled := true, cf_solver_enabled := false,
    retry_on_429 := true, retry_on_403 := false, max_retries := 1, retry_delay := 2 }

/-- Settings for the 401 scenario: defaults of `database.py` (`max_retries=3`,
`retry_on_429=1`) with the proxy feature off. -/
def settingsC1 : Settings :=
  { proxy_enabled := false, proxy_pool_enabled := false, cf_solver_enabled := false,
    retry_on_429 := true, retry_on_403 := false, max_retries := 3, retry_delay := 2 }

/-- Environment for the 401 scenario: the first upstream call gets 401, the
token refresh succeeds, calls 1-3 get 429, and call 4 would get a well-formed
200 body. -/
def envC1 : Env :=
  { responses := fun k =>
      if k = 0 then UpResp.httpErr (some 401) "HTTP Error 401: Unauthorized"
      else if k ≤ 3 then UpResp.httpErr (some 429) "HTTP Error 429: Too Many Requests"
      else UpResp.ok goodBody,
    refreshResults := fun _ => Except.ok ("newAccess", "newRefresh"),
    proxyStore := [],
    cfValidAtStart := true }

/-- The constant rate-limit message of the all-429 environment. -/
def msg429 : Nat → String := fun _ => "HTTP Error 429: Too Many Requests"

/-- Environment in which every upstream call is rate limited; the proxy pool
holds two proxies. -/
def envAll429 : Env :=
  { responses := fun k => UpResp.httpErr (some 429) (msg429 k),
    refreshResults := fun _ => Except.error "unused",
    proxyStore := [proxyP1, proxyP2],
    cfValidAtStart := true }

/-- Environment whose first upstream call yields a 2xx body missing the
nested path. -/
def envBadBody : Env :=
  { responses := fun _ => UpResp.ok badBody,
    refreshResults := fun _ => Except.error "unused",
    proxyStore := [],
    cfValidAtStart := true }

/-- Environment for the free-auth-retry scenario: call 0 gets 401, the
refresh succeeds, and every later call gets a well-formed 200 body. -/
def envAuthOk : Env :=
  { responses := fun k =>
      if k = 0 then UpResp.httpErr (some 401) "HTTP Error 401: Unauthorized"
      else UpResp.ok goodBody,
    refreshResults := fun _ => Except.ok ("newAccess", "newRefresh"),
    proxyStore := [],
    cfValidAtStart := true }

/-- Invariant used for the rotation claim: the shared index has advanced at
least once, the current proxy is the element the previous selection
returned, and every 429 rotation logged so far changed the proxy. -/
def rotOk (store : List Proxy) (s : DState) : Prop :=
  (1 ≤ s.sel.index ∧ s.proxy = store.get? ((s.sel.index - 1) % store.length)) ∧
  (∀ pr ∈ s.rot429, pr.1 ≠ pr.2)

theorem pyListGet_ok {α : Type} (xs : List α) (i : Nat) (h : i < xs.length) :
    pyListGet xs i = Except.ok (xs.get ⟨i, h⟩) := by
  unfold pyListGet
  rw [List.get?_eq_get h]

theorem get_next_proxy_rotate (settings : Settings) (store : List Proxy)
    (s : SelState) (hpe : settings.proxy_enabled = true)
    (hpp : settings.proxy_pool_enabled = true) (hne : store ≠ []) :
    get_next_proxy settings store s =
      (Except.ok (store.get? (s.index % store.length)),
       ⟨s.index % store.length + 1, s.fetches + 1⟩) := by
  have hl : 0 < store.length := List.length_pos.mpr hne
  have hi : s.index % store.length < store.length := Nat.mod_lt _ hl
  unfold get_next_proxy
  rw [hpe, hpp]
  simp only [Bool.true_eq_false, if_false, if_true]
  rw [List.isEmpty_eq_false.mpr hne]
  simp only [if_true, pyListGet_ok store _ hi, List.get?_eq_get hi]

theorem get_next_proxy_noRaise (settings : Settings) (store : List Proxy)
    (s : SelState) : noRaise (get_next_proxy settings store s).1 = true := by
  unfold get_next_proxy
  by_cases hpe : settings.proxy_enabled = false
  · simp [hpe, noRaise]
  · simp only [hpe, if_false]
    by_cases hpp : settings.proxy_pool_enabled = true
    · simp only [hpp, if_true]
      by_cases hne : store.isEmpty = false
      · have hl : 0 < store.length := by
          cases store with
          | nil => simp at hne
          | cons a l => simp
        have hi : SelState.index s % store.length < store.length := Nat.mod_lt _ hl
        simp only [hne, if_true]
        rw [pyListGet_ok store _ hi]
        rfl
      · simp [hne, noRaise]
    · simp [hpp, noRaise]

theorem get_next_proxy_ok_exists (settings : Settings) (store : List Proxy)
    (s : SelState) :
    ∃ p sel', get_next_proxy settings store s = (Except.ok p, sel') := by
  have h := get_next_proxy_noRaise settings store s
  rcases hg : get_next_proxy settings store s with ⟨r, sel'⟩
  cases r with
  | ok p => exact ⟨p, sel', rfl⟩
  | error e => rw [hg] at h; simp [noRaise] at h

theorem get_next_account_warm (store cached : List Account) (now e : Int)
    (i f : Nat) (hfresh : now < e) (hne : cached ≠ []) :
    get_next_account store now ⟨i, ⟨some cached, e⟩, f⟩ =
      (Except.ok (cached.get? (i % cached.length)),
       ⟨i % cached.length + 1, ⟨some cached, e⟩, f⟩) := by
  have hl : 0 < cached.length := List.length_pos.mpr hne
  have hi : i % cached.length < cached.length := Nat.mod_lt _ hl
  unfold get_next_account
  have hcond : ¬ ((⟨i, ⟨some cached, e⟩, f⟩ : AccState).cache.data = none ∨
      (⟨i, ⟨some cached, e⟩, f⟩ : AccState).cache.expires ≤ now) := by
    push_neg
    exact ⟨by simp, by simpa using hfresh⟩
  rw [if_neg hcond]
  simp only
  rw [List.isEmpty_eq_false.mpr hne]
  simp only [if_false, Bool.false_eq_true]
  rw [pyListGet_ok cached _ hi]
  simp only [List.get?_eq_get hi]

theorem get_next_account_noRaise (store : List Account) (now : Int)
    (s : AccState) : noRaise (get_next_account store now s).1 = true := by
  unfold get_next_account
  set s' := (if s.cache.data = none ∨ s.cache.expires ≤ now then
      { s with cache := ⟨some store, now + 10⟩, fetches := s.fetches + 1 }
    else s) with hs'
  cases hd : s'.cache.data with
  | none => simp [hd, noRaise]
  | some accounts =>
    by_cases he : accounts = []
    · simp [hd, he, noRaise]
    · have hl : 0 < accounts.length := List.length_pos.mpr he
      have hi : AccState.index s' % accounts.length < accounts.length :=
        Nat.mod_lt _ hl
      simp [hd, he, noRaise, pyListGet_ok accounts _ hi]

theorem succ_mod_ne {N : Nat} (hN : 1 < N) (m : Nat) : m % N ≠ (m + 1) % N := by
  have h0 : 0 < N := by omega
  have hr : m % N < N := Nat.mod_lt _ h0
  have h1 : (m + 1) % N = (m % N + 1) % N := by
    conv_lhs => rw [Nat.add_mod]
    rw [Nat.mod_eq_of_lt hN]
  intro h
  rw [h1] at h
  rcases Nat.lt_or_ge (m % N + 1) N with hlt | hge
  · rw [Nat.mod_eq_of_lt hlt] at h
    omega
  · have hEq : m % N + 1 = N := by omega
    rw [hEq, Nat.mod_self] at h
    omega

theorem get?_ne_of_pos_ne {α : Type} (l : List α) (hnd : l.Nodup) {i j : Nat}
    (hi : i < l.length) (hj : j < l.length) (hij : i ≠ j) :
    l.get? i ≠ l.get? j := by
  rw [List.get?_eq_get hi, List.get?_eq_get hj]
  intro h
  have hg : l.get ⟨i, hi⟩ = l.get ⟨j, hj⟩ := Option.some.inj h
  have := (List.Nodup.get_inj_iff hnd).mp hg
  exact hij (congrArg Fin.val this)

theorem after403_effects (env : Env) (s : DState) (status : Option Nat) :
    (after403 env s status).2.upCalls = s.upCalls ∧
    (after403 env s status).2.proxy = s.proxy ∧
    (after403 env s status).2.sel = s.sel ∧
    (after403 env s status).2.rot429 = s.rot429 := by
  unfold after403
  split_ifs with h
  · cases hr : env.refreshResults s.refreshCalls with
    | ok v =>
      cases v
      simp [hr]
    | error e => simp [hr]
  · exact ⟨rfl, rfl, rfl, rfl⟩

theorem after429_effects (settings : Settings) (env : Env) (attempt : Nat)
    (s : DState) (status : Option Nat) :
    (after429 settings env attempt s status).2.upCalls = s.upCalls ∧
    (after429 settings env attempt s status).2.proxy = s.proxy ∧
    (after429 settings env attempt s status).2.sel = s.sel ∧
    (after429 settings env attempt s status).2.rot429 = s.rot429 := by
  unfold after429
  split_ifs with h1 h2 h3
  · exact ⟨rfl, rfl, rfl, rfl⟩
  · exact ⟨rfl, rfl, rfl, rfl⟩
  · exact after403_effects env _ status
  · exact after403_effects env _ status

theorem attemptStep_effects (settings : Settings) (env : Env) (attempt : Nat)
    (s : DState) :
    (attemptStep settings env attempt s).2.upCalls = s.upCalls + 1 := by
  unfold attemptStep
  cases hr : env.responses s.upCalls with
  | ok body =>
    cases hx : extract_download_link body with
    | ok l => simp only [hx]
    | error e => cases e <;> simp only [hx]
  | exc m => rfl
  | httpErr status msg =>
    dsimp only
    by_cases hc : status = some 429 ∧ settings.retry_on_429 = true
    · rw [if_pos hc]
      by_cases hlt : attempt < settings.max_retries
      · rw [if_pos hlt]
        rcases hg : get_next_proxy settings env.proxyStore s.sel with ⟨res, sel'⟩
        cases res with
        | error e => simp [hg]
        | ok p =>
          simp only [hg]
          split_ifs <;> rfl
      · rw [if_neg hlt]
        exact (after429_effects settings env attempt _ status).1
    · rw [if_neg hc]
      exact (after429_effects settings env attempt _ status).1

theorem attemptStep_success (settings : Settings) (env : Env) (attempt : Nat)
    (s : DState) (body link : Json)
    (hresp : env.responses s.upCalls = UpResp.ok body)
    (hx : extract_download_link body = Except.ok link) :
    attemptStep settings env attempt s =
      (StepRes.done (Except.ok (DispatchResult.success link)),
       { s with upCalls := s.upCalls + 1 }) := by
  unfold attemptStep
  rw [hresp]
  dsimp only
  rw [hx]

theorem attemptStep_parse_fail (settings : Settings) (env : Env) (attempt : Nat)
    (s : DState) (body : Json)
    (hresp : env.responses s.upCalls = UpResp.ok body)
    (hx : extract_download_link body = Except.error PyErr.keyError ∨
          extract_download_link body = Except.error PyErr.indexError) :
    attemptStep settings env attempt s =
      (StepRes.done (Except.ok (DispatchResult.failure (some parseErrorMessage) s.proxy_id)),
       { s with upCalls := s.upCalls + 1, last_error := some parseErrorMessage }) := by
  unfold attemptStep
  rw [hresp]
  dsimp only
  rcases hx with hx | hx <;> rw [hx]

theorem attemptStep_401_refresh (settings : Settings) (env : Env) (attempt : Nat)
    (s : DState) (m na nr : String)
    (hresp : env.responses s.upCalls = UpResp.httpErr (some 401) m)
    (href : env.refreshResults s.refreshCalls = Except.ok (na, nr)) :
    attemptStep settings env attempt s =
      (StepRes.next,
       { s with upCalls := s.upCalls + 1,
                last_error := some m,
                refreshCalls := s.refreshCalls + 1,
                account := { s.account with access_token := na } }) := by
  unfold attemptStep
  rw [hresp]
  dsimp only
  rw [if_neg (by simp)]
  unfold after429
  rw [if_neg (by simp)]
  unfold after403
  rw [if_pos rfl]
  dsimp only
  rw [href]

theorem attemptStep_429_rotate (settings : Settings) (env : Env) (attempt : Nat)
    (s : DState) (m : String) (p : Option Proxy) (sel' : SelState)
    (hresp : env.responses s.upCalls = UpResp.httpErr (some 429) m)
    (h429 : settings.retry_on_429 = true)
    (hlt : attempt < settings.max_retries)
    (hgnp : get_next_proxy settings env.proxyStore s.sel = (Except.ok p, sel')) :
    attemptStep settings env attempt s =
      (StepRes.next,
       { s with upCalls := s.upCalls + 1,
                last_error := some m,
                cfInvalidations := s.cfInvalidations + 1,
                proxy := p,
                proxy_id := p.map Proxy.id,
                sel := sel',
                rot429 := s.rot429 ++ [(s.proxy, p)],
                solveCalls := s.solveCalls +
                  (if settings.cf_solver_enabled = true then 1 else 0),
                sleeps := s.sleeps ++ [settings.retry_delay * (attempt + 1)] }) := by
  unfold attemptStep
  rw [hresp]
  dsimp only
  rw [if_pos ⟨rfl, h429⟩, if_pos hlt]
  rw [hgnp]
  dsimp only
  by_cases hcf : settings.cf_solver_enabled = true
  · rw [if_pos hcf, if_pos hcf]
  · rw [if_neg hcf, if_neg hcf]
    rfl

theorem attemptStep_429_exhaust (settings : Settings) (env : Env) (attempt : Nat)
    (s : DState) (m : String)
    (hresp : env.responses s.upCalls = UpResp.httpErr (some 429) m)
    (h429 : settings.retry_on_429 = true)
    (hge : ¬ attempt < settings.max_retries) :
    attemptStep settings env attempt s =
      (StepRes.done (Except.ok (DispatchResult.failure (some m) s.proxy_id)),
       { s with upCalls := s.upCalls + 1,
                last_error := some m,
                cfInvalidations := s.cfInvalidations + 1 }) := by
  unfold attemptStep
  rw [hresp]
  dsimp only
  rw [if_pos ⟨rfl, h429⟩, if_neg hge]
  unfold after429
  rw [if_neg (by simp)]
  unfold after403
  rw [if_neg (by simp)]

theorem dispatchLoop_upCalls_le (settings : Settings) (env : Env) :
    ∀ (fuel attempt : Nat) (s : DState),
      (dispatchLoop settings env fuel attempt s).2.upCalls ≤ s.upCalls + fuel := by
  intro fuel
  induction fuel with
  | zero => intro attempt s; simp [dispatchLoop]
  | succ f ih =>
    intro attempt s
    unfold dispatchLoop
    rcases hstep : attemptStep settings env attempt s with ⟨step, s'⟩
    have hup : s'.upCalls = s.upCalls + 1 := by
      have := attemptStep_effects settings env attempt s
      rw [hstep] at this
      exact this
    cases step with
    | done r =>
      dsimp only
      omega
    | next =>
      dsimp only
      calc (dispatchLoop settings env f (attempt + 1) s').2.upCalls
          ≤ s'.upCalls + f := ih (attempt + 1) s'
        _ ≤ s.upCalls + (f + 1) := by omega

theorem process_eq_loop (settings : Settings) (env : Env) (account : Account)
    (proxy : Option Proxy) (proxy_id : Option Nat) (sel : SelState) :
    ∃ s0 : DState, process_sora_request settings env account proxy proxy_id sel =
      dispatchLoop settings env (settings.max_retries + 1) 0 s0 ∧
      s0.account = account ∧ s0.proxy = proxy ∧ s0.proxy_id = proxy_id ∧
      s0.sel = sel ∧ s0.upCalls = 0 ∧ s0.refreshCalls = 0 ∧ s0.sleeps = [] ∧
      s0.last_error = none ∧ s0.rot429 = [] := by
  unfold process_sora_request initState
  dsimp only
  by_cases h : settings.cf_solver_enabled = true ∧ env.cfValidAtStart = false
  · rw [if_pos h]
    exact ⟨_, rfl, rfl, rfl, rfl, rfl, rfl, rfl, rfl, rfl, rfl⟩
  · rw [if_neg h]
    exact ⟨_, rfl, rfl, rfl, rfl, rfl, rfl, rfl, rfl, rfl, rfl⟩

theorem dispatchLoop_all429 (settings : Settings) (env : Env)
    (h429 : settings.retry_on_429 = true) (msg : Nat → String)
    (hresp : ∀ k, env.responses k = UpResp.httpErr (some 429) (msg k)) :
    ∀ (fuel attempt : Nat) (s : DState),
      attempt + fuel = settings.max_retries + 1 → 1 ≤ fuel →
      (dispatchLoop settings env fuel attempt s).1 =
        Except.ok (DispatchResult.failure (some (msg (s.upCalls + fuel - 1)))
          ((dispatchLoop settings env fuel attempt s).2.proxy_id)) ∧
      (dispatchLoop settings env fuel attempt s).2.upCalls = s.upCalls + fuel := by
  intro fuel
  induction fuel with
  | zero =>
    intro attempt s hsum h1
    exact absurd h1 (by omega)
  | succ f ih =>
    intro attempt s hsum hge1
    cases Nat.eq_zero_or_pos f with
    | inl hf0 =>
      subst hf0
      have hge : ¬ attempt < settings.max_retries := by omega
      unfold dispatchLoop
      rw [attemptStep_429_exhaust settings env attempt s (msg s.upCalls)
        (hresp s.upCalls) h429 hge]
      exact ⟨rfl, rfl⟩
    | inr hfpos =>
      have hlt : attempt < settings.max_retries := by omega
      obtain ⟨p, sel', hg⟩ := get_next_proxy_ok_exists settings env.proxyStore s.sel
      unfold dispatchLoop
      rw [attemptStep_429_rotate settings env attempt s (msg s.upCalls) p sel'
        (hresp s.upCalls) h429 hlt hg]
      dsimp only
      have hrec := ih (attempt + 1)
        { s with upCalls := s.upCalls + 1,
                 last_error := some (msg s.upCalls),
                 cfInvalidations := s.cfInvalidations + 1,
                 proxy := p,
                 proxy_id := p.map Proxy.id,
                 sel := sel',
                 rot429 := s.rot429 ++ [(s.proxy, p)],
                 solveCalls := s.solveCalls +
                   (if settings.cf_solver_enabled = true then 1 else 0),
                 sleeps := s.sleeps ++ [settings.retry_delay * (attempt + 1)] }
        (by omega) (by omega)
      rcases hrec with ⟨hres, hup⟩
      dsimp only at hres hup
      constructor
      · rw [hres]
        have harith : s.upCalls + 1 + f - 1 = s.upCalls + (f + 1) - 1 := by omega
        rw [harith]
      · rw [hup]
        omega

/-- C4 (counterexample).  The claim says `is_valid()` is false at the exact
boundary instant `now = expires_at`.  In the code the guard is
`time.time() > self._expires_at`, so at `now = expires_at` the state with a
token, a raised validity flag and `expires_at = 100` is still reported
valid, while `now < expires_at` fails there. -/
theorem C4_boundary_counterexample :
    CloudflareState.is_valid
      { cf_clearance := some "tok", user_agent := none, cookies := [],
        expires_at := 100, valid := true } 100 = true ∧
    ¬ ((100 : Int) < 100) := by
  constructor
  · rfl
  · decide

/-- C4 (amended).  `is_valid()` returns true iff a (truthy) token is
present, the state was not explicitly invalidated, and `now ≤ expires_at`;
equivalently it turns false, with no `invalidate()` call, only once
`now > expires_at` — the boundary instant `now = expires_at` still counts
as valid. -/
theorem C4_is_valid_iff (s : CloudflareState) (now : Int) :
    s.is_valid now = true ↔
      (strTruthy s.cf_clearance = true ∧ s.valid = true ∧ now ≤ s.expires_at) := by
  cases hv : s.valid <;> cases ht : strTruthy s.cf_clearance <;>
    (simp [CloudflareState.is_valid, hv, ht]; try omega)

/-- C6.  The round-robin selectors never perform an out-of-range access: for
every state of the shared index and every snapshot, `get_next_account` and
`get_next_proxy` never raise (the stored index is reduced modulo the current
snapshot length before indexing), and on an empty snapshot both return
`None` without raising. -/
theorem C6_selector_in_range (accStore : List Account) (now : Int)
    (sa : AccState) (settings : Settings) (pStore : List Proxy) (sp : SelState)
    (i f : Nat) (e : Int) :
    noRaise (get_next_account accStore now sa).1 = true ∧
    noRaise (get_next_proxy settings pStore sp).1 = true ∧
    (get_next_account [] now
      { index := i, cache := { data := none, expires := e }, fetches := f }).1 =
      Except.ok none ∧
    (get_next_proxy settings [] sp).1 = Except.ok none := by
  refine ⟨get_next_account_noRaise _ _ _, get_next_proxy_noRaise _ _ _, rfl, ?_⟩
  unfold get_next_proxy
  by_cases h1 : settings.proxy_enabled = false
  · rw [if_pos h1]
  · rw [if_neg h1]
    by_cases h2 : settings.proxy_pool_enabled = true
    · rw [if_pos h2]
      rfl
    · rw [if_neg h2]

/-- C2 (counterexample).  The claim says proxy selection is backed by a
10-second TTL cache, so a second selection right after a first one reuses
the snapshot without a store round-trip.  In the code `get_next_proxy` calls
`db.get_enabled_proxies()` unconditionally (there is no proxy cache — only
accounts and settings are cached): two back-to-back selections perform two
store fetches. -/
theorem C2_counterexample :
    ((get_next_proxy settingsPool [proxyP1, proxyP2]
        (get_next_proxy settingsPool [proxyP1, proxyP2]
          { index := 0, fetches := 0 }).2).2).fetches = 2 := rfl

/-- C2 (amended).  Proxy selection is not cached: every `get_next_proxy`
call with the pool enabled performs a store round-trip.  The 10-second TTL
read-through cache exists for account selection: within the TTL,
`get_next_account` performs no store fetch and leaves the cached snapshot
in place. -/
theorem C2_proxy_uncached_accounts_cached :
    (∀ (settings : Settings) (store : List Proxy) (s : SelState),
      settings.proxy_enabled = true → settings.proxy_pool_enabled = true →
      (get_next_proxy settings store s).2.fetches = s.fetches + 1) ∧
    (∀ (store cached : List Account) (now e : Int) (i f : Nat),
      now < e →
      (get_next_account store now
        { index := i, cache := { data := some cached, expires := e },
          fetches := f }).2.fetches = f ∧
      (get_next_account store now
        { index := i, cache := { data := some cached, expires := e },
          fetches := f }).2.cache =
        { data := some cached, expires := e }) := by
  constructor
  · intro settings store s hpe hpp
    unfold get_next_proxy
    rw [if_neg (by simp [hpe]), if_pos hpp]
    dsimp only
    by_cases hne : store.isEmpty = false
    · rw [if_pos hne]
      cases hq : pyListGet store (s.index % store.length) with
      | ok p => rfl
      | error e2 => rfl
    · rw [if_neg hne]
  · intro store cached now e i f hfresh
    have hcond : ¬ (((⟨i, ⟨some cached, e⟩, f⟩ : AccState).cache.data = none) ∨
        (⟨i, ⟨some cached, e⟩, f⟩ : AccState).cache.expires ≤ now) := by
      rintro (h | h)
      · exact absurd h (by simp)
      · simp only at h
        omega
    unfold get_next_account
    rw [if_neg hcond]
    dsimp only
    by_cases hc : cached.isEmpty = true
    · rw [if_pos hc]
      exact ⟨rfl, rfl⟩
    · rw [if_neg hc]
      cases hq : pyListGet cached (i % cached.length) with
      | ok a => exact ⟨rfl, rfl⟩
      | error e2 => exact ⟨rfl, rfl⟩

/-- C2 (witness for the amended theorem): the pool-enabled proxy selection
fetches once, and a warm account cache fetch-free selection. -/
theorem C2_witness :
    (get_next_proxy settingsPool [proxyP1, proxyP2]
      { index := 0, fetches := 0 }).2.fetches = 0 + 1 ∧
    (get_next_account [accountA] 0
      { index := 0, cache := { data := some [accountA], expires := 5 },
        fetches := 0 }).2.fetches = 0 ∧
    (get_next_account [accountA] 0
      { index := 0, cache := { data := some [accountA], expires := 5 },
        fetches := 0 }).2.cache = { data := some [accountA], expires := 5 } :=
  ⟨C2_proxy_uncached_accounts_cached.1 settingsPool [proxyP1, proxyP2]
      { index := 0, fetches := 0 } rfl rfl,
   (C2_proxy_uncached_accounts_cached.2 [accountA] [accountA] 0 5 0 0
      (by decide)).1,
   (C2_proxy_uncached_accounts_cached.2 [accountA] [accountA] 0 5 0 0
      (by decide)).2⟩

/-- C9 (counterexample).  The claim says the outcome-recording step never
raises back to the caller.  In `get_sora_link` none of the three store
writes is wrapped in a handler: when `db.update_account_usage` raises after
a successful dispatch, the raise escapes and the caller never receives the
success reply. -/
theorem C9_counterexample :
    record_and_respond
      { updateAccountUsageOk := false, updateProxyUsageOk := true, addLogOk := true }
      none (DispatchResult.success sampleLink) =
      Except.error "db.update_account_usage raised" := rfl

/-- C9 (amended).  The outcome-recording tail is not exception-guarded: a
successful dispatch reaches the caller as the download-link reply exactly
when all store writes it performs succeed (`update_account_usage`, then
`update_proxy_usage` when a proxy id is present, then `add_log`); any
failing write escapes instead of being swallowed. -/
theorem C9_recorder_unguarded (renv : RecorderEnv) (proxy_id : Option Nat)
    (link : Json) :
    record_and_respond renv proxy_id (DispatchResult.success link) =
        Except.ok (HttpReply.okLink link) ↔
      (renv.updateAccountUsageOk = true ∧
       (proxy_id = none ∨ renv.updateProxyUsageOk = true) ∧
       renv.addLogOk = true) := by
  rcases renv with ⟨a, p, l⟩
  unfold record_and_respond
  cases a <;> cases p <;> cases l <;> cases proxy_id <;> simp

/-- C8.  A transport-successful upstream response whose body lacks the
nested `post -> attachments[0] -> encodings -> source -> path` field (a
`KeyError` or `IndexError` during extraction) makes the dispatch return the
terminal malformed-response failure after exactly one upstream call and with
no sleeping, for every retry configuration. -/
theorem C8_malformed_terminal (settings : Settings) (env : Env)
    (account : Account) (proxy : Option Proxy) (proxy_id : Option Nat)
    (sel : SelState) (body : Json)
    (hresp : env.responses 0 = UpResp.ok body)
    (herr : extract_download_link body = Except.error PyErr.keyError ∨
            extract_download_link body = Except.error PyErr.indexError) :
    (process_sora_request settings env account proxy proxy_id sel).1 =
      Except.ok (DispatchResult.failure (some parseErrorMessage) proxy_id) ∧
    (process_sora_request settings env account proxy proxy_id sel).2.upCalls = 1 ∧
    (process_sora_request settings env account proxy proxy_id sel).2.sleeps = [] := by
  obtain ⟨s0, heq, hacc, hpx, hpid, hsel, hup, hrc, hsl, hle, hrot⟩ :=
    process_eq_loop settings env account proxy proxy_id sel
  rw [heq]
  have hresp0 : env.responses s0.upCalls = UpResp.ok body := by
    rw [hup]; exact hresp
  unfold dispatchLoop
  rw [attemptStep_parse_fail settings env 0 s0 body hresp0 herr]
  dsimp only
  refine ⟨by rw [hpid], by rw [hup], by rw [hsl]⟩

/-- C8 (witness): the environment that answers a 2xx body whose `post`
object has no `attachments` key. -/
theorem C8_witness :
    (process_sora_request settingsPool envBadBody accountA none none
      { index := 0, fetches := 0 }).1 =
      Except.ok (DispatchResult.failure (some parseErrorMessage) none) ∧
    (process_sora_request settingsPool envBadBody accountA none none
      { index := 0, fetches := 0 }).2.upCalls = 1 ∧
    (process_sora_request settingsPool envBadBody accountA none none
      { index := 0, fetches := 0 }).2.sleeps = [] :=
  C8_malformed_terminal settingsPool envBadBody accountA none none
    { index := 0, fetches := 0 } badBody rfl (Or.inl rfl)

/-- C3.  With `max_retries = 3` and retry-on-429 enabled, an upstream that
answers 429 on every call produces exactly 4 upstream calls and a failure
whose cause is the rate-limit error of the last attempt; and in general the
retry loop never performs more than `max_retries + 1` upstream calls. -/
theorem C3_retry_budget (settings : Settings) (env : Env) (account : Account)
    (proxy : Option Proxy) (proxy_id : Option Nat) (sel : SelState)
    (msg : Nat → String)
    (hmr : settings.max_retries = 3) (h429 : settings.retry_on_429 = true)
    (hresp : ∀ k, env.responses k = UpResp.httpErr (some 429) (msg k)) :
    ((process_sora_request settings env account proxy proxy_id sel).1 =
       Except.ok (DispatchResult.failure (some (msg 3))
         ((process_sora_request settings env account proxy proxy_id sel).2.proxy_id)) ∧
     (process_sora_request settings env account proxy proxy_id sel).2.upCalls = 4) ∧
    (∀ (settings2 : Settings) (env2 : Env) (account2 : Account)
       (proxy2 : Option Proxy) (proxy_id2 : Option Nat) (sel2 : SelState),
      (process_sora_request settings2 env2 account2 proxy2 proxy_id2 sel2).2.upCalls ≤
        settings2.max_retries + 1) := by
  constructor
  · obtain ⟨s0, heq, hacc, hpx, hpid, hsel, hup, hrc, hsl, hle, hrot⟩ :=
      process_eq_loop settings env account proxy proxy_id sel
    rw [heq]
    have h := dispatchLoop_all429 settings env h429 msg hresp
      (settings.max_retries + 1) 0 s0 (by omega) (by omega)
    rcases h with ⟨hres, hupc⟩
    constructor
    · rw [hres, hup, hmr]
    · rw [hupc, hup, hmr]
  · intro settings2 env2 account2 proxy2 proxy_id2 sel2
    obtain ⟨s0, heq, hacc, hpx, hpid, hsel, hup, hrc, hsl, hle, hrot⟩ :=
      process_eq_loop settings2 env2 account2 proxy2 proxy_id2 sel2
    rw [heq]
    have hb := dispatchLoop_upCalls_le settings2 env2 (settings2.max_retries + 1) 0 s0
    omega

/-- C3 (witness): the always-429 environment under the default settings. -/
theorem C3_witness :
    (process_sora_request settingsC1 envAll429 accountA none none
      { index := 0, fetches := 0 }).1 =
      Except.ok (DispatchResult.failure (some (msg429 3))
        ((process_sora_request settingsC1 envAll429 accountA none none
          { index := 0, fetches := 0 }).2.proxy_id)) ∧
    (process_sora_request settingsC1 envAll429 accountA none none
      { index := 0, fetches := 0 }).2.upCalls = 4 :=
  (C3_retry_budget settingsC1 envAll429 accountA none none
    { index := 0, fetches := 0 } msg429 rfl rfl (fun _ => rfl)).1

/-- C1 (counterexample).  The claim says a 401 retry is free: after a 401
and a successful refresh, the loop still admits `max_retries + 1` non-401
upstream attempts.  In the code the 401 branch `continue`s inside
`for attempt in range(max_retries + 1)`, so the 401 consumes an iteration.
Concretely, with `max_retries = 3` and responses 401 (refresh succeeds),
429, 429, 429, then a well-formed 200 queued as call 4, the dispatch stops
after 4 upstream calls (the 401 plus only 3 non-401 attempts) and fails with
the rate-limit cause — under the claim the fourth non-401 attempt would have
reached the 200 body and returned SUCCESS. -/
theorem C1_counterexample :
    (process_sora_request settingsC1 envC1 accountA none none
      { index := 0, fetches := 0 }).1 =
      Except.ok (DispatchResult.failure
        (some "HTTP Error 429: Too Many Requests") none) ∧
    (process_sora_request settingsC1 envC1 accountA none none
      { index := 0, fetches := 0 }).2.upCalls = 4 ∧
    envC1.responses 4 = UpResp.ok goodBody ∧
    extract_download_link goodBody = Except.ok sampleLink := ⟨rfl, rfl, rfl, rfl⟩

/-- C1 (amended).  On a 401 the dispatcher refreshes the token; on refresh
success it swaps the in-memory credential's `access_token` and retries
without sleeping, but the 401 attempt consumes one of the
`max_retries + 1` loop iterations.  A 401 followed by a successful refresh
and then a well-formed 200 returns SUCCESS after exactly two upstream calls
with an empty sleep log and the swapped token (provided at least one
iteration remains, i.e. `max_retries ≥ 1`). -/
theorem C1_auth_retry_no_sleep (settings : Settings) (env : Env)
    (account : Account) (proxy : Option Proxy) (proxy_id : Option Nat)
    (sel : SelState) (m na nr : String) (body link : Json)
    (hmr : 1 ≤ settings.max_retries)
    (hresp0 : env.responses 0 = UpResp.httpErr (some 401) m)
    (href : env.refreshResults 0 = Except.ok (na, nr))
    (hresp1 : env.responses 1 = UpResp.ok body)
    (hx : extract_download_link body = Except.ok link) :
    (process_sora_request settings env account proxy proxy_id sel).1 =
      Except.ok (DispatchResult.success link) ∧
    (process_sora_request settings env account proxy proxy_id sel).2.sleeps = [] ∧
    (process_sora_request settings env account proxy proxy_id sel).2.account.access_token = na ∧
    (process_sora_request settings env account proxy proxy_id sel).2.upCalls = 2 := by
  obtain ⟨s0, heq, hacc, hpx, hpid, hsel, hup, hrc, hsl, hle, hrot⟩ :=
    process_eq_loop settings env account proxy proxy_id sel
  rw [heq]
  obtain ⟨mr, hmr2⟩ : ∃ mr, settings.max_retries = mr + 1 :=
    ⟨settings.max_retries - 1, by omega⟩
  rw [hmr2]
  have h401 : env.responses s0.upCalls = UpResp.httpErr (some 401) m := by
    rw [hup]; exact hresp0
  have href0 : env.refreshResults s0.refreshCalls = Except.ok (na, nr) := by
    rw [hrc]; exact href
  unfold dispatchLoop
  rw [attemptStep_401_refresh settings env 0 s0 m na nr h401 href0]
  dsimp only
  have hresp1b : env.responses
      (({ s0 with upCalls := s0.upCalls + 1,
                  last_error := some m,
                  refreshCalls := s0.refreshCalls + 1,
                  account := { s0.account with access_token := na } } : DState).upCalls) =
      UpResp.ok body := by
    dsimp only
    rw [hup]
    exact hresp1
  unfold dispatchLoop
  rw [attemptStep_success settings env (0 + 1) _ body link hresp1b hx]
  dsimp only
  refine ⟨rfl, ?_, rfl, ?_⟩
  · exact hsl
  · dsimp only
    omega

/-- C1 (witness for the amended theorem): 401, successful refresh, then a
well-formed 200, under the default settings. -/
theorem C1_witness :
    (process_sora_request settingsC1 envAuthOk accountA none none
      { index := 0, fetches := 0 }).1 =
      Except.ok (DispatchResult.success sampleLink) ∧
    (process_sora_request settingsC1 envAuthOk accountA none none
      { index := 0, fetches := 0 }).2.sleeps = [] ∧
    (process_sora_request settingsC1 envAuthOk accountA none none
      { index := 0, fetches := 0 }).2.account.access_token = "newAccess" ∧
    (process_sora_request settingsC1 envAuthOk accountA none none
      { index := 0, fetches := 0 }).2.upCalls = 2 :=
  C1_auth_retry_no_sleep settingsC1 envAuthOk accountA none none
    { index := 0, fetches := 0 } "HTTP Error 401: Unauthorized"
    "newAccess" "newRefresh" goodBody sampleLink (by decide) rfl rfl rfl rfl

theorem iterSelect_warm (store : List Account) (now e : Int) (f : Nat)
    (hne : store ≠ []) (hfresh : now < e) :
    ∀ (n j : Nat),
      (iterSelect store now n
        { index := j, cache := { data := some store, expires := e },
          fetches := f }).1 =
        (List.range n).map (fun k => store.get? ((j + k) % store.length)) := by
  intro n
  induction n with
  | zero => intro j; rfl
  | succ n ih =>
    intro j
    unfold iterSelect
    rw [get_next_account_warm store store now e j f hfresh hne]
    dsimp only
    rw [ih (j % store.length + 1)]
    rw [List.range_succ_eq_map, List.map_cons, List.map_map]
    have h0 : store.get? (j % store.length) =
        store.get? ((j + 0) % store.length) := by rw [Nat.add_zero]
    rw [h0]
    have hfun : (fun k => store.get? ((j % store.length + 1 + k) % store.length)) =
        ((fun k => store.get? ((j + k) % store.length)) ∘ Nat.succ) := by
      funext k
      show store.get? ((j % store.length + 1 + k) % store.length) =
        store.get? ((j + (k + 1)) % store.length)
      congr 1
      have h1 : j % store.length + 1 + k = j % store.length + (1 + k) := by omega
      rw [h1, Nat.mod_add_mod]
      have h2 : j + (1 + k) = j + (k + 1) := by omega
      rw [h2]
    rw [hfun]

/-- C7.  Over a fixed non-empty snapshot of size `N` held warm in the
accounts cache, `N` consecutive selector calls starting from any shared
index `i` return each of the `N` items exactly once, in the snapshot's
cyclic order starting at position `i % N` (the result list is exactly the
rotation of the snapshot by `i % N`), and on a run of `N + 1` calls the
last call returns the same item as the first. -/
theorem C7_round_robin_cycle (store : List Account) (i f : Nat) (now e : Int)
    (hne : store ≠ []) (hfresh : now < e) :
    (iterSelect store now store.length
      { index := i, cache := { data := some store, expires := e },
        fetches := f }).1 =
      (store.rotate (i % store.length)).map some ∧
    (iterSelect store now (store.length + 1)
      { index := i, cache := { data := some store, expires := e },
        fetches := f }).1.get? store.length =
    (iterSelect store now (store.length + 1)
      { index := i, cache := { data := some store, expires := e },
        fetches := f }).1.get? 0 := by
  have hL : 0 < store.length := List.length_pos.mpr hne
  constructor
  · rw [iterSelect_warm store now e f hne hfresh store.length i]
    apply List.ext_get?
    intro m
    rw [List.get?_map, List.get?_map]
    by_cases hm : m < store.length
    · rw [List.get?_range hm, List.get?_rotate hm]
      simp only [Option.map_some']
      have hidx : (m + i % store.length) % store.length =
          (i + m) % store.length := by
        rw [Nat.add_comm m (i % store.length), Nat.mod_add_mod]
      rw [hidx]
      have hin : (i + m) % store.length < store.length := Nat.mod_lt _ hL
      rw [List.get?_eq_get hin]
      simp only [Option.map_some']
    · have hm1 : (List.range store.length).get? m = none :=
        List.get?_eq_none.mpr (by rw [List.length_range]; omega)
      have hm2 : (store.rotate (i % store.length)).get? m = none :=
        List.get?_eq_none.mpr (by rw [List.length_rotate]; omega)
      rw [hm1, hm2]
      rfl
  · rw [iterSelect_warm store now e f hne hfresh (store.length + 1) i]
    rw [List.get?_map, List.get?_map]
    rw [List.get?_range (by omega), List.get?_range (by omega)]
    simp only [Option.map_some']
    congr 2
    rw [Nat.add_zero, Nat.add_mod_right]

/-- C7 (witness): two warm-cached accounts, starting index 1: the two calls
return the rotation by one, and the third call wraps to the first item. -/
theorem C7_witness :
    (iterSelect [accountA, accountB] 0 ([accountA, accountB]).length
      { index := 1, cache := { data := some [accountA, accountB], expires := 5 },
        fetches := 0 }).1 =
      (([accountA, accountB]).rotate (1 % ([accountA, accountB]).length)).map some ∧
    (iterSelect [accountA, accountB] 0 (([accountA, accountB]).length + 1)
      { index := 1, cache := { data := some [accountA, accountB], expires := 5 },
        fetches := 0 }).1.get? ([accountA, accountB]).length =
    (iterSelect [accountA, accountB] 0 (([accountA, accountB]).length + 1)
      { index := 1, cache := { data := some [accountA, accountB], expires := 5 },
        fetches := 0 }).1.get? 0 :=
  C7_round_robin_cycle [accountA, accountB] 1 0 0 5 (by simp) (by decide)

theorem attemptStep_rotOk (settings : Settings) (env : Env) (attempt : Nat)
    (s : DState)
    (hpe : settings.proxy_enabled = true)
    (hpp : settings.proxy_pool_enabled = true)
    (hN : 1 < env.proxyStore.length)
    (hnd : (env.proxyStore.map Proxy.id).Nodup)
    (hs : rotOk env.proxyStore s) :
    rotOk env.proxyStore (attemptStep settings env attempt s).2 := by
  have hne : env.proxyStore ≠ [] := by
    intro h
    rw [h] at hN
    simp at hN
  obtain ⟨⟨hidx, hprox⟩, hpairs⟩ := hs
  unfold attemptStep
  cases hr : env.responses s.upCalls with
  | ok body =>
    cases hx : extract_download_link body with
    | ok l =>
      simp only [hx]
      exact ⟨⟨hidx, hprox⟩, hpairs⟩
    | error e =>
      cases e <;> (simp only [hx]; exact ⟨⟨hidx, hprox⟩, hpairs⟩)
  | exc m => exact ⟨⟨hidx, hprox⟩, hpairs⟩
  | httpErr status msg =>
    dsimp only
    by_cases hc : status = some 429 ∧ settings.retry_on_429 = true
    · rw [if_pos hc]
      by_cases hlt : attempt < settings.max_retries
      · rw [if_pos hlt]
        rw [get_next_proxy_rotate settings env.proxyStore _ hpe hpp hne]
        dsimp only
        have hL0 : 0 < env.proxyStore.length := by omega
        have hposne : (s.sel.index - 1) % env.proxyStore.length ≠
            s.sel.index % env.proxyStore.length := by
          have h1 := succ_mod_ne hN (s.sel.index - 1)
          have hk : s.sel.index - 1 + 1 = s.sel.index := by omega
          rw [hk] at h1
          exact h1
        have hget : env.proxyStore.get? ((s.sel.index - 1) % env.proxyStore.length) ≠
            env.proxyStore.get? (s.sel.index % env.proxyStore.length) :=
          get?_ne_of_pos_ne env.proxyStore (List.Nodup.of_map _ hnd)
            (Nat.mod_lt _ hL0) (Nat.mod_lt _ hL0) hposne
        have hmm : s.sel.index % env.proxyStore.length % env.proxyStore.length =
            s.sel.index % env.proxyStore.length :=
          Nat.mod_eq_of_lt (Nat.mod_lt _ hL0)
        by_cases hcf : settings.cf_solver_enabled = true
        · rw [if_pos hcf]
          refine ⟨⟨Nat.succ_le_succ (Nat.zero_le _), ?_⟩, ?_⟩
          · dsimp only
            rw [Nat.add_sub_cancel, hmm]
          · intro pr hpr
            dsimp only at hpr
            rcases List.mem_append.mp hpr with hin | hin
            · exact hpairs pr hin
            · have hpr2 := List.mem_singleton.mp hin
              subst hpr2
              show s.proxy ≠ env.proxyStore.get? (s.sel.index % env.proxyStore.length)
              rw [hprox]
              exact hget
        · rw [if_neg hcf]
          refine ⟨⟨Nat.succ_le_succ (Nat.zero_le _), ?_⟩, ?_⟩
          · dsimp only
            rw [Nat.add_sub_cancel, hmm]
          · intro pr hpr
            dsimp only at hpr
            rcases List.mem_append.mp hpr with hin | hin
            · exact hpairs pr hin
            · have hpr2 := List.mem_singleton.mp hin
              subst hpr2
              show s.proxy ≠ env.proxyStore.get? (s.sel.index % env.proxyStore.length)
              rw [hprox]
              exact hget
      · rw [if_neg hlt]
        obtain ⟨h1, h2, h3, h4⟩ := after429_effects settings env attempt
          { s with upCalls := s.upCalls + 1, last_error := some msg,
                   cfInvalidations := s.cfInvalidations + 1 } status
        refine ⟨⟨?_, ?_⟩, ?_⟩
        · rw [h3]; exact hidx
        · rw [h2, h3]; exact hprox
        · rw [h4]; exact hpairs
    · rw [if_neg hc]
      obtain ⟨h1, h2, h3, h4⟩ := after429_effects settings env attempt
        { s with upCalls := s.upCalls + 1, last_error := some msg } status
      refine ⟨⟨?_, ?_⟩, ?_⟩
      · rw [h3]; exact hidx
      · rw [h2, h3]; exact hprox
      · rw [h4]; exact hpairs

theorem dispatchLoop_rotOk (settings : Settings) (env : Env)
    (hpe : settings.proxy_enabled = true)
    (hpp : settings.proxy_pool_enabled = true)
    (hN : 1 < env.proxyStore.length)
    (hnd : (env.proxyStore.map Proxy.id).Nodup) :
    ∀ (fuel attempt : Nat) (s : DState), rotOk env.proxyStore s →
      rotOk env.proxyStore (dispatchLoop settings env fuel attempt s).2 := by
  intro fuel
  induction fuel with
  | zero => intro attempt s hs; exact hs
  | succ f ih =>
    intro attempt s hs
    unfold dispatchLoop
    rcases hstep : attemptStep settings env attempt s with ⟨step, s'⟩
    have hs' : rotOk env.proxyStore s' := by
      have h := attemptStep_rotOk settings env attempt s hpe hpp hN hnd hs
      rw [hstep] at h
      exact h
    cases step with
    | done r => exact hs'
    | next => exact ih (attempt + 1) s' hs'

/-- C5.  Within one dispatch call with the proxy pool enabled and more than
one (distinct-id) proxy enabled, proxy rotation on consecutive 429-retry
attempts never selects the same proxy on two attempts in a row: when the
initial proxy handed to `process_sora_request` was itself produced by a
`get_next_proxy` call that left the shared index in the state the
dispatcher starts from, every (previous proxy, newly selected proxy) pair
logged at a 429 rotation has distinct components. -/
theorem C5_rotation_never_repeats (settings : Settings) (env : Env)
    (account : Account) (p0 : Option Proxy) (proxy_id : Option Nat)
    (sel1 : SelState) (j f : Nat)
    (hpe : settings.proxy_enabled = true)
    (hpp : settings.proxy_pool_enabled = true)
    (hN : 1 < env.proxyStore.length)
    (hnd : (env.proxyStore.map Proxy.id).Nodup)
    (hinit : get_next_proxy settings env.proxyStore { index := j, fetches := f } =
      (Except.ok p0, sel1)) :
    ∀ pr ∈ (process_sora_request settings env account p0 proxy_id sel1).2.rot429,
      pr.1 ≠ pr.2 := by
  have hne : env.proxyStore ≠ [] := by
    intro h
    rw [h] at hN
    simp at hN
  have hL0 : 0 < env.proxyStore.length := by omega
  rw [get_next_proxy_rotate settings env.proxyStore _ hpe hpp hne] at hinit
  injection hinit with hp0 hsel1
  obtain ⟨s0, heq, hacc, hpx, hpid, hsel, hup, hrc, hsl, hle, hrot⟩ :=
    process_eq_loop settings env account p0 proxy_id sel1
  rw [heq]
  have hs0 : rotOk env.proxyStore s0 := by
    refine ⟨⟨?_, ?_⟩, ?_⟩
    · rw [hsel, ← hsel1]
      exact Nat.succ_le_succ (Nat.zero_le _)
    · rw [hpx, hsel, ← hsel1]
      dsimp only
      rw [Nat.add_sub_cancel,
        Nat.mod_eq_of_lt (Nat.mod_lt _ hL0)]
      injection hp0 with hp0v
      rw [← hp0v]
    · rw [hrot]
      intro pr hpr
      exact absurd hpr (List.not_mem_nil pr)
  exact (dispatchLoop_rotOk settings env hpe hpp hN hnd
    (settings.max_retries + 1) 0 s0 hs0).2

/-- C5 (witness): two enabled proxies, retry-on-429, one retry: the single
logged rotation pair is (proxy 1, proxy 2), and the theorem yields its
distinctness. -/
theorem C5_witness :
    (some proxyP1, some proxyP2).1 ≠ (some proxyP1, some proxyP2).2 :=
  C5_rotation_never_repeats settingsPool envAll429 accountA (some proxyP1) none
    { index := 1, fetches := 1 } 0 0 rfl rfl (by decide) (by decide) rfl
    (some proxyP1, some proxyP2) (by decide)

/-- C10 (implicit).  In the `get-sora-link` handler, account selection runs
before the application-token check and before URL validation: for every
request (also one with a missing or invalid application token) the shared
round-robin account state is advanced exactly as by `get_next_account`; when
no enabled account exists the caller receives the no-account 500 reply
rather than the 401 reply, even with an invalid token; and when an account
exists and a configured application token does not match the request token
the reply is the 401, the selection state having advanced regardless. -/
theorem C10_account_selection_first (appToken reqToken url : Option String)
    (store : List Account) (now : Int) (s : AccState) :
    (get_sora_link_front appToken reqToken url store now s).2 =
      (get_next_account store now s).2 ∧
    ((get_next_account store now s).1 = Except.ok none →
      (get_sora_link_front appToken reqToken url store now s).1 =
        LinkReply.noAccount) ∧
    (∀ account : Account,
      (get_next_account store now s).1 = Except.ok (some account) →
      strTruthy appToken = true → reqToken ≠ appToken →
      (get_sora_link_front appToken reqToken url store now s).1 =
        LinkReply.badToken) := by
  unfold get_sora_link_front
  rcases hga : get_next_account store now s with ⟨r, s'⟩
  cases r with
  | error e =>
    refine ⟨rfl, ?_, ?_⟩
    · intro h
      exact absurd h (by simp)
    · intro account h
      exact absurd h (by simp)
  | ok oa =>
    cases oa with
    | none =>
      refine ⟨rfl, fun _ => rfl, ?_⟩
      intro account h
      exact absurd h (by simp)
    | some account0 =>
      refine ⟨?_, ?_, ?_⟩
      · dsimp only
        by_cases hcond : strTruthy appToken = true ∧ reqToken ≠ appToken
        · rw [if_pos hcond]
        · rw [if_neg hcond]
          by_cases hurl : strTruthy url = false
          · rw [if_pos hurl]
          · rw [if_neg hurl]
            cases hf : findSoraId (url.getD "").toList with
            | none => rfl
            | some vid => rfl
      · intro h
        exact absurd h (by simp)
      · intro account h htok hneq
        dsimp only
        rw [if_pos ⟨htok, hneq⟩]

/-- C10 (witness): with a configured token and a wrong request token, the
empty store yields the no-account reply, and a non-empty store yields the
401 reply — account selection having run first in both cases. -/
theorem C10_witness :
    (get_sora_link_front (some "secret") (some "wrong") (some "ignored") []
      0 { index := 0, cache := { data := none, expires := 0 },
          fetches := 0 }).1 = LinkReply.noAccount ∧
    (get_sora_link_front (some "secret") (some "wrong") none [accountA]
      0 { index := 0, cache := { data := none, expires := 0 },
          fetches := 0 }).1 = LinkReply.badToken :=
  ⟨(C10_account_selection_first (some "secret") (some "wrong") (some "ignored")
      [] 0 { index := 0, cache := { data := none, expires := 0 },
             fetches := 0 }).2.1 rfl,
   (C10_account_selection_first (some "secret") (some "wrong") none
      [accountA] 0 { index := 0, cache := { data := none, expires := 0 },
                     fetches := 0 }).2.2 accountA rfl rfl (by decide)⟩
